import Mathlib

/-!
Verification of the multi-source stock-data sync engine of `oh-my-astock`
against its natural-language specification.

Each definition below is a shallow embedding of a concrete piece of the
repository's Python source; the file/line references are given in the doc
comments.  Machine floats are modelled as rationals, database tables as
lists of rows keyed by their SQL primary key, and fallible Python code as
`Option`/`Except`-valued functions.
-/
/-! ## Freshness planner (`src/services/historical_data_service.py`) -/
/-- Embeds `HistoricalDataService.get_missing_stocks`
(`historical_data_service.py` lines 674-695): the stock codes of the
universe that have no historical data at all.  `dbCodes` stands for the
result of `get_stocks_with_historical_data()` (the distinct codes present
in the `stock_historical_data` table). -/
def get_missing_stocks (dbCodes : List String) (all_stock_codes : List String) :
    List String :=
  all_stock_codes.filter (fun c => decide (c ∉ dbCodes))

/-- Embeds `HistoricalDataService.get_stocks_missing_today_data`
(`historical_data_service.py` lines 697-739): among `stock_codes`, keep
those with no stored row at the target (most recent business) date.
`hasToday c` stands for "the COUNT(*) query at the target date returns a
positive count for `c`". -/
def get_stocks_missing_today_data (hasToday : String → Bool)
    (stock_codes : List String) : List String :=
  stock_codes.filter (fun c => !hasToday c)

/-- The three work queues returned by `compute_fetching_list`. -/
structure FetchingList where
  missing_all : List String
  missing_today : List String
  skip : List String
deriving DecidableEq, Repr

/-- Embeds `HistoricalDataService.compute_fetching_list`
(`historical_data_service.py` lines 741-781): partition the universe into
codes needing a full backfill, codes needing only the latest day, and
codes already up to date. -/
def compute_fetching_list (dbCodes : List String) (hasToday : String → Bool)
    (all_stock_codes : List String) : FetchingList :=
  let missing_all := get_missing_stocks dbCodes all_stock_codes
  let existing_codes := all_stock_codes.filter (fun c => decide (c ∉ missing_all))
  let missing_today := get_stocks_missing_today_data hasToday existing_codes
  let skip_codes := existing_codes.filter (fun c => decide (c ∉ missing_today))
  ⟨missing_all, missing_today, skip_codes⟩

/-! ## `sync-historical` command (`src/cli/commands.py`) -/
/-- Embeds the work-list computation of the `--all-stocks` branch of
`sync_historical` (`commands.py` lines 197-216): the fetching list is
always computed and `codes_to_process = missing_all + missing_today`
(truncated by `--limit`).  The `force_full_sync` flag is accepted
(`commands.py` lines 132, 136) but never consulted anywhere in the body,
so it is an unused argument here exactly as in the source. -/
def sync_codes_to_process (force_full_sync : Bool) (dbCodes : List String)
    (hasToday : String → Bool) (all_stock_codes : List String)
    (limit : Option Nat) : List String :=
  let fl := compute_fetching_list dbCodes hasToday all_stock_codes
  let codes := fl.missing_all ++ fl.missing_today
  match limit with
  | some n => codes.take n
  | none => codes

/-- Embeds `get_sync_strategy` (`commands.py` lines 236-242): the per-code
strategy chosen inside the worker pool. -/
def get_sync_strategy (fl : FetchingList) (stock_code : String) : String :=
  if stock_code ∈ fl.missing_all then "full_sync"
  else if stock_code ∈ fl.missing_today then "today_only"
  else "smart_check"

/-- The data printed by the summary block of `sync_historical`
(`commands.py` lines 298-306) together with the value the command returns
there.  The Python function body ends after the `click.echo` calls with no
`return` statement, so the returned value is `none` (Python `None`); a
completed run therefore never signals failure through its status. -/
structure SyncSummary where
  successful : Nat
  failed : Nat
  total_inserted : Nat
  failed_stocks : List String
  returned : Option Nat
deriving DecidableEq, Repr

/-- Embeds the summary block of `sync_historical` (`commands.py` lines
298-306): `successful` counts results with a true success flag (line 301),
failures are reported from `failed_stocks`, and the function returns
without any status value. -/
def sync_historical_summary (results : List (String × Bool))
    (failed_stocks : List String) (total_inserted : Nat) : SyncSummary :=
  { successful := (results.filter (fun r => r.2)).length
    failed := failed_stocks.length
    total_inserted := total_inserted
    failed_stocks := failed_stocks
    returned := none }

/-- Process exit status of a completed `click` command whose callback
returned the given value: a Python function that falls off the end returns
`None`, and the process then exits with status 0. -/
def process_exit_status : Option Nat → Nat
  | none => 0
  | some n => n

/-! ## Adaptive rate limiter (`src/lib/rate_limiter.py`) -/
/-- The mutable state of `AdaptiveRateLimiter`
(`rate_limiter.py` lines 110-164); float fields modelled as rationals. -/
structure AdaptiveRateLimiter where
  current_interval : ℚ
  last_request_time : ℚ
deriving DecidableEq, Repr

/-- Embeds `AdaptiveRateLimiter.__init__` (`rate_limiter.py` lines
117-125). -/
def AdaptiveRateLimiter.mk_initial (initial_min_interval : ℚ) :
    AdaptiveRateLimiter :=
  { current_interval := initial_min_interval, last_request_time := 0 }

/-- Embeds `AdaptiveRateLimiter.report_success` (`rate_limiter.py` lines
151-158): `self.current_interval *= 0.9`, with no other change and no
lower bound. -/
def AdaptiveRateLimiter.report_success (s : AdaptiveRateLimiter) :
    AdaptiveRateLimiter :=
  { s with current_interval := s.current_interval * (9 / 10) }

/-! ## Retry with exponential backoff (`src/lib/retry.py`) -/
/-- Embeds `RetryConfig.__init__` (`retry.py` lines 17-44); float fields
modelled as rationals. -/
structure RetryConfig where
  max_retries : ℕ
  initial_backoff : ℚ
  max_backoff : ℚ
  backoff_multiplier : ℚ
  jitter : Bool
  calm_down_time : ℚ
deriving DecidableEq, Repr

/-- The default `RetryConfig()` (`retry.py` lines 20-27): 5 retries,
initial 1s, max 60s, multiplier 2, jitter on, calm-down 0.5s. -/
def default_retry_config : RetryConfig :=
  { max_retries := 5
    initial_backoff := 1
    max_backoff := 60
    backoff_multiplier := 2
    jitter := true
    calm_down_time := 1 / 2 }

/-- Embeds `RetryConfig.calculate_backoff` (`retry.py` lines 46-67).
`jit attempt` stands for the draw `random.random() * 2 - 1 ∈ (-1, 1)` used
by the ±20% jitter on that attempt. -/
def calculate_backoff (cfg : RetryConfig) (jit : ℕ → ℚ) (attempt : ℕ) : ℚ :=
  let backoff := min (cfg.initial_backoff * cfg.backoff_multiplier ^ attempt)
    cfg.max_backoff
  let backoff :=
    if cfg.jitter then max 0 (backoff + backoff * (1 / 5) * jit attempt)
    else backoff
  backoff + cfg.calm_down_time

/-- Observable behaviour of one call to a function wrapped by the `retry`
decorator: the final outcome (`Except.error none` models Python's
`raise last_exception` when `last_exception` is still `None`, i.e.
`max_retries = 0`; `Except.error (some e)` models the exception `e`
escaping), the number of invocations of the wrapped function, and the
sequence of `time.sleep` durations. -/
structure RetryTrace (E α : Type) where
  result : Except (Option E) α
  calls : ℕ
  sleeps : List ℚ

/-- Embeds the loop of the `retry` decorator's `wrapper`
(`retry.py` lines 96-116).  `i` is the current value of `attempt`,
`remaining` the number of loop iterations left, `last` the current
`last_exception`.  `op i` is the outcome of the wrapped function on the
`i`-th invocation; an exception with `declared e = false` is not caught by
the `except exceptions` clause and propagates immediately; a sleep of
`backoffAt i` happens only when `attempt < max_retries - 1`, i.e. when further
iterations remain. -/
def retry_loop (declared : E → Bool) (op : ℕ → Except E α) (backoffAt : ℕ → ℚ) :
    ℕ → ℕ → Option E → RetryTrace E α
  | _, 0, last => ⟨.error last, 0, []⟩
  | i, r + 1, _ =>
    match op i with
    | .ok a => ⟨.ok a, 1, []⟩
    | .error e =>
      if declared e then
        if r = 0 then ⟨.error (some e), 1, []⟩
        else
          let rest := retry_loop declared op backoffAt (i + 1) r (some e)
          ⟨rest.result, rest.calls + 1, backoffAt i :: rest.sleeps⟩
      else ⟨.error (some e), 1, []⟩

/-- Embeds a call to a function wrapped by `retry(exceptions, config)`
(`retry.py` lines 70-116): run the loop `for attempt in range(max_retries)`
from attempt 0 with `last_exception = None`. -/
def retry (cfg : RetryConfig) (jit : ℕ → ℚ) (declared : E → Bool)
    (op : ℕ → Except E α) : RetryTrace E α :=
  retry_loop declared op (calculate_backoff cfg jit) 0 cfg.max_retries none

/-! ## Stock info service (`backend/src/services/stock_info_service.py`)
and symbol conversion -/
/-- Python `s.startswith(c)` for a one-character prefix `c`: true iff the
first character of `s` is `c`. -/
def str_starts_with_char (s : String) (c : Char) : Bool :=
  s.data.head? == some c

/-- Python `s.startswith(p)` for a string prefix `p`. -/
def str_starts_with (s p : String) : Bool :=
  p.data.isPrefixOf s.data

/-- Embeds `StockInfoService._get_prefixed_symbol`
(`stock_info_service.py` lines 18-36): '6' maps to "SH", '0'/'3' to "SZ",
empty or non-6-character codes and every other leading character raise
`ValueError` (modelled as `Except.error` with the format-string message). -/
def get_prefixed_symbol (stock_code : String) : Except String String :=
  if stock_code = "" ∨ stock_code.length ≠ 6 then
    Except.error ("Invalid stock code format: " ++ stock_code)
  else if str_starts_with_char stock_code '6' then
    Except.ok ("SH" ++ stock_code)
  else if str_starts_with_char stock_code '0' || str_starts_with_char stock_code '3' then
    Except.ok ("SZ" ++ stock_code)
  else
    Except.error ("Unknown stock exchange for code: " ++ stock_code)

/-- Embeds the `stock_zh_a_hist_tx` symbol-prefix logic of
`HistoricalDataService.fetch_historical_data`
(`historical_data_service.py` lines 136-146): codes already carrying an
sh/sz prefix are lower-cased; otherwise leading '6' or '9' maps to "sh"
and everything else to "sz". -/
def tx_prefixed_symbol (stock_code : String) : String :=
  if str_starts_with stock_code "sh" || str_starts_with stock_code "sz" ||
      str_starts_with stock_code "SH" || str_starts_with stock_code "SZ" then
    stock_code.toLower
  else if str_starts_with_char stock_code '6' || str_starts_with_char stock_code '9' then
    "sh" ++ stock_code
  else
    "sz" ++ stock_code

/-- The fields for which Xueqiu takes precedence
(`stock_info_service.py` line 139). -/
def xueqiu_priority_fields : List String :=
  ["current_price", "change_percent", "volume", "turnover"]

/-- The fields for which East Money takes precedence
(`stock_info_service.py` line 147). -/
def east_money_priority_fields : List String :=
  ["pe_ratio", "pb_ratio"]

/-- Insertion into the `merged_data` dict: `merged_data[field] = v`.
Source data maps conflate "key absent" and "value is None", exactly the
conjunction `field in data and data[field] is not None` tested by the
merge loops. -/
def dict_insert (m : String → Option V) (k : String) (v : V) :
    String → Option V :=
  fun q => if q = k then some v else m q

/-- The two-branch body shared by the merge loops
(`stock_info_service.py` lines 141-144, 149-152, 158-161): take the first
source that succeeded and defines the field with a non-None value. -/
def pick_first (s1 : Bool) (d1 : String → Option V) (s2 : Bool)
    (d2 : String → Option V) (field : String) : Option V :=
  if s1 && (d1 field).isSome then d1 field
  else if s2 && (d2 field).isSome then d2 field
  else none

/-- One priority loop of the merge (`stock_info_service.py` lines 140-144
and 148-152): for each field of the fixed list, insert the picked value
if any. -/
def merge_priority_loop (pick : String → Option V) (fields : List String)
    (m : String → Option V) : String → Option V :=
  fields.foldl (fun acc f =>
    match pick f with
    | some v => dict_insert acc f v
    | none => acc) m

/-- The remaining-fields loop of the merge (`stock_info_service.py` lines
154-161): iterate over `all_fields = set(em_data) | set(xq_data)` in the
set's iteration order `order` and fill in the fields not already merged,
East Money first. -/
def merge_remaining_loop (pick : String → Option V) (order : List String)
    (m : String → Option V) : String → Option V :=
  order.foldl (fun acc f =>
    if (acc f).isSome then acc
    else
      match pick f with
      | some v => dict_insert acc f v
      | none => acc) m

/-- Embeds the `merged_data` computation of `StockInfoService.get_stock_info`
(`stock_info_service.py` lines 135-161): the Xueqiu-priority loop, then
the East-Money-priority loop, then the remaining-fields loop. -/
def merge_stock_data (em_success xq_success : Bool)
    (em_data xq_data : String → Option V) (order : List String) :
    String → Option V :=
  let loop1 := merge_priority_loop (pick_first xq_success xq_data em_success em_data)
    xueqiu_priority_fields (fun _ => none)
  let loop2 := merge_priority_loop (pick_first em_success em_data xq_success xq_data)
    east_money_priority_fields loop1
  merge_remaining_loop (pick_first em_success em_data xq_success xq_data) order loop2

/-- Outcome of the raw upstream call made inside
`_fetch_east_money_data` / `_fetch_xueqiu_data`
(`stock_info_service.py` lines 38-93): an exception, an empty/None
DataFrame, or a record of (possibly None-valued) fields. -/
inductive RawFetch (V : Type) where
  | failure (msg : String)
  | empty
  | success (d : String → Option V)

/-- Embeds the result shape of `_fetch_east_money_data` and
`_fetch_xueqiu_data` (`stock_info_service.py` lines 38-93): every
exception is caught and, like an empty response, becomes `({}, False)`;
a non-empty response becomes `(fields, True)`. -/
def fetch_source_data : RawFetch V → (String → Option V) × Bool
  | .failure _ => (fun _ => none, false)
  | .empty => (fun _ => none, false)
  | .success d => (d, true)

/-- The dict returned by `StockInfoService.get_stock_info`
(`stock_info_service.py` lines 95-175): identity fields (`code`,
`symbol`), per-source success flags (`data_sources`), merged data and
error messages. -/
structure StockInfoResult (V : Type) where
  code : String
  symbol : Option String
  east_money_success : Bool
  xueqiu_success : Bool
  merged : String → Option V
  errors : List String

/-- Embeds `StockInfoService.get_stock_info` (`stock_info_service.py`
lines 95-175, cache aside): convert the symbol (an invalid code returns
early with only the error recorded), fetch both sources with every
exception contained, merge under the precedence rules, and append one
error message per failed source.  The function is total: no input makes
it raise. -/
def get_stock_info (stock_code : String) (em_raw xq_raw : RawFetch V)
    (order : List String) : StockInfoResult V :=
  match get_prefixed_symbol stock_code with
  | .error e =>
      { code := stock_code, symbol := none, east_money_success := false,
        xueqiu_success := false, merged := fun _ => none, errors := [e] }
  | .ok sym =>
      let em := fetch_source_data em_raw
      let xq := fetch_source_data xq_raw
      { code := stock_code, symbol := some sym,
        east_money_success := em.2, xueqiu_success := xq.2,
        merged := merge_stock_data em.2 xq.2 em.1 xq.1 order,
        errors :=
          (if em.2 then [] else ["Failed to fetch data from East Money API"]) ++
          (if xq.2 then [] else ["Failed to fetch data from Xueqiu API"]) }

/-! ## Historical data storage (`src/services/historical_data_service.py`) -/
/-- One row of the `stock_historical_data` table exclusive of the
`created_at`/`updated_at` timestamp columns, per the CREATE TABLE of
`create_historical_data_table` (`historical_data_service.py` lines 44-63);
DECIMAL columns modelled as rationals, BIGINT as integers.  The SQL
primary key is `(date, stock_code)`. -/
structure HistoricalRow where
  date : String
  stock_code : String
  open_price : ℚ
  close_price : ℚ
  high_price : ℚ
  low_price : ℚ
  volume : ℤ
  turnover : ℚ
  amplitude : ℚ
  price_change_rate : ℚ
  price_change : ℚ
  turnover_rate : ℚ
deriving DecidableEq, Repr

/-- The SQL primary key `(date, stock_code)` of a row. -/
def row_key (r : HistoricalRow) : String × String :=
  (r.date, r.stock_code)

/-- The key column of a stored table (each stored row carries its
timestamp of type `T`). -/
def key_list {T : Type} (table : List (HistoricalRow × T)) :
    List (String × String) :=
  table.map (fun s => row_key s.1)

/-- A table respects the SQL PRIMARY KEY constraint: pairwise-distinct
`(date, stock_code)` keys. -/
def nodup_keys {T : Type} (table : List (HistoricalRow × T)) : Prop :=
  (key_list table).Nodup

/-- Semantics of `INSERT OR REPLACE` for one row: the row with the same
primary key (if any) is replaced, never duplicated, and no key-collision
error is raised (the operation is total). -/
def insert_or_replace {T : Type} (r : HistoricalRow × T)
    (table : List (HistoricalRow × T)) : List (HistoricalRow × T) :=
  table.filter (fun s => decide (row_key s.1 ≠ row_key r.1)) ++ [r]

/-- Embeds the batch insertion of `store_historical_data`
(`historical_data_service.py` lines 391-462): `executemany` of the
`INSERT OR REPLACE INTO stock_historical_data` statement over the
converted rows inside one transaction.  The `created_at`/`updated_at`
values — `datetime.now()` at conversion time — are the `stamp` attached
to every row of the call. -/
def store_historical_data {T : Type} (stamp : T) (rows : List HistoricalRow)
    (table : List (HistoricalRow × T)) : List (HistoricalRow × T) :=
  rows.foldl (fun acc r => insert_or_replace (r, stamp) acc) table

/-- A sample bar used to evaluate the storage theorems. -/
def sample_row : HistoricalRow :=
  { date := "2024-01-02", stock_code := "000001", open_price := 1,
    close_price := 2, high_price := 3, low_price := 1, volume := 100,
    turnover := 5, amplitude := 1, price_change_rate := 2, price_change := 1,
    turnover_rate := 3 }

/-! ## Row conversion (`src/services/historical_data_service.py`,
`_convert_row_to_values`, lines 310-389) -/
/-- A Python value as it can occur in a fetched DataFrame cell: `None`, a
float NaN (or pandas NA), a number, a string, or some other object on
which `float()`/`int()` raise `TypeError`. -/
inductive PyVal where
  | vNone
  | vNaN
  | vNum (q : ℚ)
  | vStr (s : String)
  | vObj
deriving DecidableEq, Repr

/-- The sentinel markers recognised by `safe_float`/`safe_int`
(`historical_data_service.py` lines 329-335, 352-358). -/
def sentinel_markers : List String :=
  ["n/a", "null", "none", "nan", "i"]

/-- `pd.isna(value) or value is None` (`historical_data_service.py` lines
323, 346). -/
def pd_isna : PyVal → Bool
  | .vNone => true
  | .vNaN => true
  | _ => false

/-- Embeds `safe_float` (`historical_data_service.py` lines 321-342).
`value` is the result of `row.get(...)` (`none` = key missing = Python
`None`).  `parse` stands for Python's `float()` string parser; a parse
failure is the caught `ValueError`, a non-numeric non-string object the
caught `TypeError`.  The function is total: every unusable value becomes
`dflt`. -/
def safe_float (parse : String → Option ℚ) (value : Option PyVal)
    (dflt : ℚ) : ℚ :=
  match value with
  | none => dflt
  | some v =>
    if pd_isna v then dflt
    else
      match v with
      | .vStr s =>
          let t := s.trim
          if t = "" ∨ t.toLower ∈ sentinel_markers then dflt
          else
            match parse t with
            | some q => q
            | none => dflt
      | .vNum q => q
      | .vObj => dflt
      | .vNone => dflt
      | .vNaN => dflt

/-- Embeds `safe_int` (`historical_data_service.py` lines 344-367): like
`safe_float` but converting through `int(float(value))`, which truncates
toward zero — `Int.tdiv` of the rational's numerator by its denominator. -/
def safe_int (parse : String → Option ℚ) (value : Option PyVal)
    (dflt : ℤ) : ℤ :=
  match value with
  | none => dflt
  | some v =>
    if pd_isna v then dflt
    else
      match v with
      | .vStr s =>
          let t := s.trim
          if t = "" ∨ t.toLower ∈ sentinel_markers then dflt
          else
            match parse t with
            | some q => Int.tdiv q.num q.den
            | none => dflt
      | .vNum q => Int.tdiv q.num q.den
      | .vObj => dflt
      | .vNone => dflt
      | .vNaN => dflt

/-- A fetched DataFrame row as consumed by `_convert_row_to_values`: the
`date` cell (accessed as `row["date"]`, so its absence is a KeyError) and
the remaining cells accessed through `row.get`. -/
structure DataRow where
  date : Option String
  fields : String → Option PyVal

/-- The numeric float columns filled by `_convert_row_to_values`
(`historical_data_service.py` lines 374-386). -/
def numeric_float_fields : List String :=
  ["open_price", "close_price", "high_price", "low_price", "turnover",
   "amplitude", "price_change_rate", "price_change", "turnover_rate"]

/-- Embeds `_convert_row_to_values` (`historical_data_service.py` lines
310-389) up to the two trailing `datetime.now()` timestamps (the `stamp`
of `store_historical_data`): a missing `date` key raises KeyError
(`none`; the caller catches it and skips the row), every numeric cell
goes through `safe_float` with default 0.0 — `safe_int` with default 0
for `volume`. -/
def convert_row_to_values (parse : String → Option ℚ) (stock_code : String)
    (row : DataRow) : Option HistoricalRow :=
  match row.date with
  | none => none
  | some d =>
      some
        { date := d, stock_code := stock_code,
          open_price := safe_float parse (row.fields "open_price") 0,
          close_price := safe_float parse (row.fields "close_price") 0,
          high_price := safe_float parse (row.fields "high_price") 0,
          low_price := safe_float parse (row.fields "low_price") 0,
          volume := safe_int parse (row.fields "volume") 0,
          turnover := safe_float parse (row.fields "turnover") 0,
          amplitude := safe_float parse (row.fields "amplitude") 0,
          price_change_rate := safe_float parse (row.fields "price_change_rate") 0,
          price_change := safe_float parse (row.fields "price_change") 0,
          turnover_rate := safe_float parse (row.fields "turnover_rate") 0 }

/-- The values on which the claim says the conversion falls back to the
default: missing, `None`, NaN, empty or whitespace-only string, sentinel
string, unparseable string, or a non-numeric object. -/
def unusable_numeric (parse : String → Option ℚ) : Option PyVal → Prop
  | none => True
  | some .vNone => True
  | some .vNaN => True
  | some .vObj => True
  | some (.vNum _) => False
  | some (.vStr s) =>
      s.trim = "" ∨ (s.trim).toLower ∈ sentinel_markers ∨ parse s.trim = none

/-! ## Theorems -/

/-- C1: for every universe of stock codes and every latest-date view of
stored history (here: the set of codes with any history, and the per-code
"has a row at the target date" flag), the three queues of
`compute_fetching_list` — `missing_all`, `missing_today`, `skip` — cover
the universe exactly and are pairwise disjoint. -/
theorem c1_fetching_list_partitions (dbCodes : List String)
    (hasToday : String → Bool) (all_stock_codes : List String) (c : String) :
    ((c ∈ (compute_fetching_list dbCodes hasToday all_stock_codes).missing_all ∨
      c ∈ (compute_fetching_list dbCodes hasToday all_stock_codes).missing_today ∨
      c ∈ (compute_fetching_list dbCodes hasToday all_stock_codes).skip) ↔
        c ∈ all_stock_codes) ∧
    ¬(c ∈ (compute_fetching_list dbCodes hasToday all_stock_codes).missing_all ∧
      c ∈ (compute_fetching_list dbCodes hasToday all_stock_codes).missing_today) ∧
    ¬(c ∈ (compute_fetching_list dbCodes hasToday all_stock_codes).missing_all ∧
      c ∈ (compute_fetching_list dbCodes hasToday all_stock_codes).skip) ∧
    ¬(c ∈ (compute_fetching_list dbCodes hasToday all_stock_codes).missing_today ∧
      c ∈ (compute_fetching_list dbCodes hasToday all_stock_codes).skip) := by
  simp only [compute_fetching_list, get_missing_stocks, get_stocks_missing_today_data,
    List.mem_filter, decide_eq_true_eq, Bool.not_eq_true']
  by_cases hdb : c ∈ dbCodes <;> by_cases ht : hasToday c = true <;> simp_all

/-- C2 (code bug): the `--force-full-sync` flag of `sync_historical` is
never consulted: the planning step is not skipped and up-to-date codes are
still skipped.  First conjunct: the work list is identical with and
without the flag.  Second conjunct: with the flag set, a universe of one
up-to-date code yields an empty work list (no full-history fetch at all),
contradicting the claimed "every code gets a full-history fetch". -/
theorem c2_force_full_sync_ignored :
    (∀ (dbCodes : List String) (hasToday : String → Bool)
        (all_stock_codes : List String) (limit : Option Nat),
        sync_codes_to_process true dbCodes hasToday all_stock_codes limit =
          sync_codes_to_process false dbCodes hasToday all_stock_codes limit)
    ∧ sync_codes_to_process true ["000001"] (fun _ => true) ["000001"] none = [] :=
  ⟨fun _ _ _ _ => rfl, by decide⟩

/-- C9 counterexample: a completed run with one failed stock still ends
with process exit status 0, not 1 as claimed. -/
theorem c9_exit_code_counterexample :
    process_exit_status
        (sync_historical_summary [("000001", false)] ["000001"] 0).returned = 0 ∧
    process_exit_status
        (sync_historical_summary [("000001", false)] ["000001"] 0).returned ≠ 1 :=
  ⟨rfl, by decide⟩

/-- C9 (amended): every completed `sync-historical` run exits with status
0 regardless of how many codes failed; failures appear only in the printed
summary (whose `successful` field counts the results flagged successful). -/
theorem c9_exit_code_amended (results : List (String × Bool))
    (failed_stocks : List String) (total_inserted : Nat) :
    process_exit_status
        (sync_historical_summary results failed_stocks total_inserted).returned = 0 ∧
    (sync_historical_summary results failed_stocks total_inserted).successful =
      (results.filter (fun r => r.2)).length ∧
    (sync_historical_summary results failed_stocks total_inserted).failed =
      failed_stocks.length :=
  ⟨rfl, rfl, rfl⟩

/-- C7 counterexample: one `report_success` call on a limiter built with
the default base interval 0.5 drops the current interval to 0.45, strictly
below the base — the claimed floor at the base does not exist. -/
theorem c7_decay_floor_counterexample :
    (AdaptiveRateLimiter.report_success
        (AdaptiveRateLimiter.mk_initial (1 / 2))).current_interval < 1 / 2 := by
  norm_num [AdaptiveRateLimiter.report_success, AdaptiveRateLimiter.mk_initial]

/-- C7 (amended): each `report_success` call multiplies the current
interval by 0.9, so after `n` calls from base `b` it equals
`b * (9/10) ^ n`; there is no floor — for a positive base and at least one
call the interval is strictly below the base. -/
theorem c7_decay_no_floor (b : ℚ) (n : ℕ) :
    (AdaptiveRateLimiter.report_success^[n]
        (AdaptiveRateLimiter.mk_initial b)).current_interval = b * (9 / 10) ^ n ∧
    (0 < b → 1 ≤ n →
      (AdaptiveRateLimiter.report_success^[n]
          (AdaptiveRateLimiter.mk_initial b)).current_interval < b) := by
  have key : ∀ m : ℕ,
      AdaptiveRateLimiter.report_success^[m] (AdaptiveRateLimiter.mk_initial b) =
        AdaptiveRateLimiter.mk_initial (b * (9 / 10) ^ m) := by
    intro m
    induction m with
    | zero => simp
    | succ k ih =>
        rw [Function.iterate_succ_apply', ih]
        simp [AdaptiveRateLimiter.report_success, AdaptiveRateLimiter.mk_initial,
          pow_succ, mul_assoc]
  refine ⟨by rw [key]; rfl, fun hb hn => ?_⟩
  rw [key]
  have hpow : (9 / 10 : ℚ) ^ n < 1 :=
    pow_lt_one₀ (by norm_num) (by norm_num) (by omega)
  simpa [AdaptiveRateLimiter.mk_initial] using mul_lt_of_lt_one_right hb hpow

/-- C7 witness: the amended theorem evaluated at base 1/2 and two calls. -/
theorem c7_decay_no_floor_witness :
    (AdaptiveRateLimiter.report_success^[2]
        (AdaptiveRateLimiter.mk_initial (1 / 2))).current_interval =
      (1 / 2) * (9 / 10) ^ 2 ∧
    (AdaptiveRateLimiter.report_success^[2]
        (AdaptiveRateLimiter.mk_initial (1 / 2))).current_interval < 1 / 2 :=
  ⟨(c7_decay_no_floor (1 / 2) 2).1,
   (c7_decay_no_floor (1 / 2) 2).2 (by norm_num) (by norm_num)⟩

/-- When every invocation fails with a caught exception, the loop performs
exactly `r + 1` invocations starting at attempt `i`, sleeps after each but
the last, and re-raises the exception of the final attempt. -/
theorem retry_loop_all_fail {E α : Type} (declared : E → Bool) (f : ℕ → E)
    (backoffAt : ℕ → ℚ) (hd : ∀ i, declared (f i) = true) :
    ∀ (r i : ℕ) (last : Option E),
      retry_loop declared (fun j => Except.error (f j)) backoffAt i (r + 1) last =
        (⟨Except.error (some (f (i + r))), r + 1,
          (List.range r).map (fun k => backoffAt (i + k))⟩ : RetryTrace E α) := by
  intro r
  induction r with
  | zero => intro i last; simp [retry_loop, hd i]
  | succ m ih =>
      intro i last
      conv_lhs => rw [retry_loop]
      simp only [hd i, if_true, Nat.succ_ne_zero, if_false, ih (i + 1)]
      simp only [RetryTrace.mk.injEq]
      refine ⟨congrArg (fun n => Except.error (some (f n))) (by omega), trivial, ?_⟩
      rw [List.range_succ_eq_map, List.map_cons, List.map_map]
      refine congrArg₂ List.cons (congrArg backoffAt (by omega)) ?_
      exact List.map_congr_left (fun k _ => congrArg backoffAt (by omega))

/-- An exception not in the declared set is not caught: the wrapped
function is invoked once, no sleep happens, and the exception propagates. -/
theorem retry_loop_undeclared {E α : Type} (declared : E → Bool)
    (op : ℕ → Except E α) (backoffAt : ℕ → ℚ) (i r : ℕ) (last : Option E) (e : E)
    (hop : op i = Except.error e) (hd : declared e = false) :
    retry_loop declared op backoffAt i (r + 1) last =
      (⟨Except.error (some e), 1, []⟩ : RetryTrace E α) := by
  simp [retry_loop, hop, hd]

/-- C6 counterexample: with the default configuration (`max_retries = 5`)
and an operation that always raises a caught exception, the wrapped
function is invoked exactly 5 times in total — not `max_retries + 1 = 6`
as the claim's "up to maxRetries times in addition to the initial attempt"
requires. -/
theorem c6_retry_counterexample :
    (retry default_retry_config (fun _ => 0) (fun _ => true)
        (fun _ => (Except.error 0 : Except ℕ ℕ))).calls = 5 ∧
    (retry default_retry_config (fun _ => 0) (fun _ => true)
        (fun _ => (Except.error 0 : Except ℕ ℕ))).calls ≠
      default_retry_config.max_retries + 1 :=
  ⟨rfl, by decide⟩

/-- C6 (amended): for an operation that raises a declared transient
exception on every invocation, the `retry` wrapper invokes the wrapped
function exactly `max_retries` times in total (the initial attempt plus
`max_retries - 1` re-invocations), sleeps `calculate_backoff attempt`
between consecutive attempts (attempts `0 .. max_retries - 2`), re-raises
the exception of the last attempt after exhausting the attempts, and
catches only the declared exception kinds: an undeclared exception on the
first invocation propagates at once with no retry and no sleep. -/
theorem c6_retry_amended {E α : Type} (cfg : RetryConfig) (jit : ℕ → ℚ)
    (declared : E → Bool) (f : ℕ → E)
    (hd : ∀ i, declared (f i) = true) (h1 : 1 ≤ cfg.max_retries) :
    (retry cfg jit declared (fun i => Except.error (f i)) : RetryTrace E α).calls =
      cfg.max_retries ∧
    (retry cfg jit declared (fun i => Except.error (f i)) : RetryTrace E α).result =
      Except.error (some (f (cfg.max_retries - 1))) ∧
    (retry cfg jit declared (fun i => Except.error (f i)) : RetryTrace E α).sleeps =
      (List.range (cfg.max_retries - 1)).map (calculate_backoff cfg jit) ∧
    (∀ (op : ℕ → Except E α) (e : E), op 0 = Except.error e → declared e = false →
      retry cfg jit declared op = ⟨Except.error (some e), 1, []⟩) := by
  obtain ⟨m, hm⟩ : ∃ m, cfg.max_retries = m + 1 := ⟨cfg.max_retries - 1, by omega⟩
  have hall := @retry_loop_all_fail E α declared f (calculate_backoff cfg jit) hd m 0 none
  refine ⟨?_, ?_, ?_, ?_⟩
  · simp only [retry, hm, hall]
  · simp only [retry, hm, hall]; simp
  · simp only [retry, hm, hall]; simp
  · intro op e hop hde
    rw [retry, hm]
    exact retry_loop_undeclared declared op (calculate_backoff cfg jit) 0 m none e
      hop hde

/-- C6 witness: the amended theorem evaluated with the default
configuration, zero jitter draws, declared set "nonzero error codes", and
an operation failing on attempt `i` with error `i + 1`. -/
theorem c6_retry_amended_witness :
    (retry default_retry_config (fun _ => 0) (fun e => e != 0)
        (fun i => (Except.error (i + 1) : Except ℕ ℕ))).calls = 5 ∧
    (retry default_retry_config (fun _ => 0) (fun e => e != 0)
        (fun i => (Except.error (i + 1) : Except ℕ ℕ))).result =
      Except.error (some 5) ∧
    (retry default_retry_config (fun _ => 0) (fun e => e != 0)
        (fun i => (Except.error (i + 1) : Except ℕ ℕ))).sleeps =
      (List.range (default_retry_config.max_retries - 1)).map
        (calculate_backoff default_retry_config (fun _ => 0)) ∧
    retry default_retry_config (fun _ => 0) (fun e => e != 0)
        (fun _ => (Except.error 0 : Except ℕ ℕ)) =
      ⟨Except.error (some 0), 1, []⟩ := by
  have h := @c6_retry_amended ℕ ℕ default_retry_config (fun _ => 0)
    (fun e => e != 0) (fun i => i + 1) (fun i => by simp) (by decide)
  exact ⟨h.1, h.2.1, h.2.2.1, h.2.2.2 (fun _ => Except.error 0) 0 rfl (by decide)⟩

/-- A string starts with at most one first character. -/
theorem str_starts_with_char_unique {s : String} {c c' : Char}
    (h : str_starts_with_char s c = true) (hne : c' ≠ c) :
    str_starts_with_char s c' = false := by
  unfold str_starts_with_char at h ⊢
  rw [beq_iff_eq] at h
  rw [h]
  have hcc : c ≠ c' := fun hcc => hne hcc.symm
  exact beq_eq_false_iff_ne.mpr (fun hsome => hcc (Option.some.inj hsome))

/-- A string whose first character is `c` does not start with a string
whose first character differs from `c`. -/
theorem str_starts_with_ne_head {s p : String} {c x : Char} {xs : List Char}
    (h : str_starts_with_char s c = true) (hp : p.data = x :: xs) (hne : x ≠ c) :
    str_starts_with s p = false := by
  unfold str_starts_with_char at h
  unfold str_starts_with
  rw [hp]
  rw [beq_iff_eq] at h
  cases hsd : s.data with
  | nil => rw [hsd] at h; simp at h
  | cons d rest =>
      rw [hsd] at h
      simp only [List.head?_cons, Option.some.injEq] at h
      subst h
      simp [List.isPrefixOf, beq_eq_false_iff_ne]
      intro hxc
      exact absurd hxc hne

/-- A code whose first character is a digit starts with none of the
sh/sz/SH/SZ prefixes checked by `tx_prefixed_symbol`. -/
theorem tx_no_market_head {code : String} {d : Char}
    (hd : str_starts_with_char code d = true)
    (h_s : 's' ≠ d) (h_S : 'S' ≠ d) :
    (str_starts_with code "sh" || str_starts_with code "sz" ||
      str_starts_with code "SH" || str_starts_with code "SZ") = false := by
  rw [str_starts_with_ne_head hd (show ("sh" : String).data = 's' :: ['h'] from rfl) h_s,
    str_starts_with_ne_head hd (show ("sz" : String).data = 's' :: ['z'] from rfl) h_s,
    str_starts_with_ne_head hd (show ("SH" : String).data = 'S' :: ['H'] from rfl) h_S,
    str_starts_with_ne_head hd (show ("SZ" : String).data = 'S' :: ['Z'] from rfl) h_S]
  rfl

/-- C8 counterexample: the Beijing-exchange code "830001" (leading digit
'8') is rejected by `_get_prefixed_symbol` with a ValueError instead of
being converted — the claimed '8'/'9' → Beijing mapping does not exist. -/
theorem c8_beijing_code_counterexample :
    get_prefixed_symbol "830001" =
      Except.error "Unknown stock exchange for code: 830001" := rfl

/-- C8 (amended): for every 6-character code, `_get_prefixed_symbol` maps
a leading '6' to "SH" + code and a leading '0' or '3' to "SZ" + code, but
rejects a leading '8' or '9' with a ValueError; the `stock_zh_a_hist_tx`
fallback of `fetch_historical_data` maps a leading '6' or '9' to
"sh" + code and the other digits (including '0', '3', '8') to "sz" + code. -/
theorem c8_symbol_conversion_amended (code : String) (hlen : code.length = 6) :
    (str_starts_with_char code '6' = true →
      get_prefixed_symbol code = Except.ok ("SH" ++ code)) ∧
    (str_starts_with_char code '0' = true ∨ str_starts_with_char code '3' = true →
      get_prefixed_symbol code = Except.ok ("SZ" ++ code)) ∧
    (str_starts_with_char code '8' = true ∨ str_starts_with_char code '9' = true →
      get_prefixed_symbol code =
        Except.error ("Unknown stock exchange for code: " ++ code)) ∧
    (str_starts_with_char code '6' = true ∨ str_starts_with_char code '9' = true →
      tx_prefixed_symbol code = "sh" ++ code) ∧
    (str_starts_with_char code '0' = true ∨ str_starts_with_char code '3' = true ∨
        str_starts_with_char code '8' = true →
      tx_prefixed_symbol code = "sz" ++ code) := by
  have hne_empty : ¬(code = "" ∨ code.length ≠ 6) := by
    push_neg
    refine ⟨?_, hlen⟩
    intro h
    subst h
    simp at hlen
  refine ⟨?_, ?_, ?_, ?_, ?_⟩
  · intro h6
    simp [get_prefixed_symbol, hne_empty, h6]
  · rintro (h0 | h3)
    · simp [get_prefixed_symbol, hne_empty, h0,
        str_starts_with_char_unique h0 (show '6' ≠ '0' by decide)]
    · simp [get_prefixed_symbol, hne_empty, h3,
        str_starts_with_char_unique h3 (show '6' ≠ '3' by decide)]
  · rintro (h8 | h9)
    · simp [get_prefixed_symbol, hne_empty,
        str_starts_with_char_unique h8 (show '6' ≠ '8' by decide),
        str_starts_with_char_unique h8 (show '0' ≠ '8' by decide),
        str_starts_with_char_unique h8 (show '3' ≠ '8' by decide)]
    · simp [get_prefixed_symbol, hne_empty,
        str_starts_with_char_unique h9 (show '6' ≠ '9' by decide),
        str_starts_with_char_unique h9 (show '0' ≠ '9' by decide),
        str_starts_with_char_unique h9 (show '3' ≠ '9' by decide)]
  · rintro (h6 | h9)
    · simp [tx_prefixed_symbol, h6,
        tx_no_market_head h6 (by decide) (by decide)]
    · simp [tx_prefixed_symbol, h9,
        tx_no_market_head h9 (by decide) (by decide)]
  · rintro (h0 | h3 | h8)
    · simp [tx_prefixed_symbol, tx_no_market_head h0 (by decide) (by decide),
        str_starts_with_char_unique h0 (show '6' ≠ '0' by decide),
        str_starts_with_char_unique h0 (show '9' ≠ '0' by decide)]
    · simp [tx_prefixed_symbol, tx_no_market_head h3 (by decide) (by decide),
        str_starts_with_char_unique h3 (show '6' ≠ '3' by decide),
        str_starts_with_char_unique h3 (show '9' ≠ '3' by decide)]
    · simp [tx_prefixed_symbol, tx_no_market_head h8 (by decide) (by decide),
        str_starts_with_char_unique h8 (show '6' ≠ '8' by decide),
        str_starts_with_char_unique h8 (show '9' ≠ '8' by decide)]

/-- C8 witness: the amended theorem evaluated at the Shanghai code
"600000". -/
theorem c8_symbol_conversion_amended_witness :
    get_prefixed_symbol "600000" = Except.ok ("SH" ++ "600000") ∧
    tx_prefixed_symbol "600000" = "sh" ++ "600000" := by
  have h := c8_symbol_conversion_amended "600000" (by decide)
  exact ⟨h.1 (by decide), h.2.2.2.1 (Or.inl (by decide))⟩

/-- A priority loop does not touch fields outside its field list. -/
theorem merge_priority_loop_not_mem {V : Type} (pick : String → Option V)
    (fields : List String) (m : String → Option V) (f : String)
    (hf : f ∉ fields) : merge_priority_loop pick fields m f = m f := by
  induction fields generalizing m with
  | nil => rfl
  | cons g rest ih =>
      have hfg : f ≠ g := fun h => hf (h ▸ List.mem_cons_self g rest)
      have hfr : f ∉ rest := fun h => hf (List.mem_cons_of_mem g h)
      simp only [merge_priority_loop, List.foldl_cons]
      have hstep := ih (match pick g with
        | some v => dict_insert m g v
        | none => m) hfr
      refine hstep.trans ?_
      cases hp : pick g with
      | none => rfl
      | some v => simp [dict_insert, hfg]

/-- A priority loop writes `pick f` at every field `f` of its
duplicate-free field list for which `pick f` is defined. -/
theorem merge_priority_loop_mem {V : Type} (pick : String → Option V)
    (fields : List String) (m : String → Option V) (f : String) (v : V)
    (hf : f ∈ fields) (hnd : fields.Nodup) (hp : pick f = some v) :
    merge_priority_loop pick fields m f = some v := by
  induction fields generalizing m with
  | nil => cases hf
  | cons g rest ih =>
      simp only [merge_priority_loop, List.foldl_cons]
      rcases List.mem_cons.mp hf with rfl | hfr
      · have hfr : f ∉ rest := (List.nodup_cons.mp hnd).1
        have hstep := merge_priority_loop_not_mem pick rest (match pick f with
          | some v => dict_insert m f v
          | none => m) f hfr
        refine hstep.trans ?_
        rw [hp]
        simp [dict_insert]
      · exact ih (match pick g with
          | some v => dict_insert m g v
          | none => m) hfr (List.nodup_cons.mp hnd).2

/-- The remaining-fields loop never overwrites an already-merged field
(`field not in merged_data` guard, `stock_info_service.py` line 157),
whatever the iteration order of the field set. -/
theorem merge_remaining_loop_preserves {V : Type} (pick : String → Option V)
    (order : List String) (m : String → Option V) (f : String) (v : V)
    (hm : m f = some v) : merge_remaining_loop pick order m f = some v := by
  induction order generalizing m with
  | nil => exact hm
  | cons g rest ih =>
      simp only [merge_remaining_loop, List.foldl_cons]
      by_cases hg : (m g).isSome
      · rw [if_pos hg]
        exact ih m hm
      · rw [if_neg hg]
        cases hp : pick g with
        | none => exact ih m hm
        | some w =>
            refine ih _ ?_
            have hfg : f ≠ g := by
              intro h
              subst h
              rw [hm] at hg
              exact hg rfl
            simp [dict_insert, hfg, hm]

/-- When no source succeeded, `pick_first` yields nothing. -/
theorem pick_first_none {V : Type} (d1 d2 : String → Option V) (f : String) :
    pick_first false d1 false d2 f = none := rfl

/-- A priority loop driven by an empty pick leaves the dict unchanged. -/
theorem merge_priority_loop_pick_none {V : Type} (pick : String → Option V)
    (hp : ∀ f, pick f = none) (fields : List String) (m : String → Option V) :
    merge_priority_loop pick fields m = m := by
  induction fields generalizing m with
  | nil => rfl
  | cons g rest ih =>
      simp only [merge_priority_loop, List.foldl_cons, hp g]
      exact ih m

/-- The remaining-fields loop driven by an empty pick leaves the dict
unchanged. -/
theorem merge_remaining_loop_pick_none {V : Type} (pick : String → Option V)
    (hp : ∀ f, pick f = none) (order : List String) (m : String → Option V) :
    merge_remaining_loop pick order m = m := by
  induction order generalizing m with
  | nil => rfl
  | cons g rest ih =>
      simp only [merge_remaining_loop, List.foldl_cons, hp g, ite_self]
      exact ih m

/-- C3: when both sources succeeded and both define a field that has a
declared precedence rule with a non-None value, the merge returns the
value of the source earlier in that field's precedence list (Xueqiu for
the Xueqiu-priority fields, East Money for the East-Money-priority
fields), for every iteration order of the remaining-fields set. -/
theorem c3_precedence_determinism {V : Type} (em_data xq_data : String → Option V)
    (order : List String) (f : String) (v w : V) :
    (f ∈ xueqiu_priority_fields → xq_data f = some v → em_data f = some w →
      v ≠ w → merge_stock_data true true em_data xq_data order f = some v) ∧
    (f ∈ east_money_priority_fields → em_data f = some v → xq_data f = some w →
      v ≠ w → merge_stock_data true true em_data xq_data order f = some v) := by
  constructor
  · intro hf hxq hem hvw
    have hpick : pick_first true xq_data true em_data f = some v := by
      simp [pick_first, hxq]
    have h1 : merge_priority_loop (pick_first true xq_data true em_data)
        xueqiu_priority_fields (fun _ => none) f = some v :=
      merge_priority_loop_mem _ _ _ f v hf (by decide) hpick
    have hf2 : f ∉ east_money_priority_fields := by
      simp only [xueqiu_priority_fields, List.mem_cons,
        List.not_mem_nil, or_false] at hf
      rcases hf with rfl | rfl | rfl | rfl <;> decide
    have h2 := (merge_priority_loop_not_mem
      (pick_first true em_data true xq_data) east_money_priority_fields
      (merge_priority_loop (pick_first true xq_data true em_data)
        xueqiu_priority_fields (fun _ => none)) f hf2).trans h1
    simp only [merge_stock_data]
    exact merge_remaining_loop_preserves _ order _ f v h2
  · intro hf hem hxq hvw
    have hpick : pick_first true em_data true xq_data f = some v := by
      simp [pick_first, hem]
    have h2 : merge_priority_loop (pick_first true em_data true xq_data)
        east_money_priority_fields
        (merge_priority_loop (pick_first true xq_data true em_data)
          xueqiu_priority_fields (fun _ => none)) f = some v :=
      merge_priority_loop_mem _ _ _ f v hf (by decide) hpick
    simp only [merge_stock_data]
    exact merge_remaining_loop_preserves _ order _ f v h2

/-- C3 witness: both sources succeed and define every field; the merge
takes "current_price" from Xueqiu and "pe_ratio" from East Money. -/
theorem c3_precedence_determinism_witness :
    merge_stock_data true true (fun _ => some "em") (fun _ => some "xq")
      ["pe_ratio", "current_price"] "current_price" = some "xq" ∧
    merge_stock_data true true (fun _ => some "em") (fun _ => some "xq")
      ["pe_ratio", "current_price"] "pe_ratio" = some "em" := by
  have h1 := c3_precedence_determinism (fun _ => some "em") (fun _ => some "xq")
    ["pe_ratio", "current_price"] "current_price" "xq" "em"
  have h2 := c3_precedence_determinism (fun _ => some "em") (fun _ => some "xq")
    ["pe_ratio", "current_price"] "pe_ratio" "em" "xq"
  exact ⟨h1.1 (by decide) rfl rfl (by decide), h2.2 (by decide) rfl rfl (by decide)⟩

/-- C4: for every stock code, when neither source fetch succeeds (failure
or empty), `get_stock_info` returns a result whose merged data is empty
(identity fields only), whose error list is non-empty, and whose source
flags are both false — and, the embedding being a total function, it does
not raise. -/
theorem c4_all_sources_failed {V : Type} (stock_code : String)
    (em_raw xq_raw : RawFetch V) (order : List String)
    (hem : ∀ d, em_raw ≠ RawFetch.success d)
    (hxq : ∀ d, xq_raw ≠ RawFetch.success d) :
    (∀ f, (get_stock_info stock_code em_raw xq_raw order).merged f = none) ∧
    (get_stock_info stock_code em_raw xq_raw order).errors ≠ [] ∧
    (get_stock_info stock_code em_raw xq_raw order).east_money_success = false ∧
    (get_stock_info stock_code em_raw xq_raw order).xueqiu_success = false := by
  have hemfd : fetch_source_data em_raw = ((fun _ => none : String → Option V), false) := by
    cases em_raw with
    | failure m => rfl
    | empty => rfl
    | success d => exact absurd rfl (hem d)
  have hxqfd : fetch_source_data xq_raw = ((fun _ => none : String → Option V), false) := by
    cases xq_raw with
    | failure m => rfl
    | empty => rfl
    | success d => exact absurd rfl (hxq d)
  have hmerge : ∀ (m1 m2 : String → Option V) g,
      merge_stock_data false false m1 m2 order g = none := by
    intro m1 m2 g
    simp only [merge_stock_data]
    rw [merge_remaining_loop_pick_none (pick_first false m1 false m2) (fun f => rfl),
      merge_priority_loop_pick_none (pick_first false m1 false m2) (fun f => rfl),
      merge_priority_loop_pick_none (pick_first false m2 false m1) (fun f => rfl)]
  cases hsym : get_prefixed_symbol stock_code with
  | error e => simp [get_stock_info, hsym]
  | ok sym => simp [get_stock_info, hsym, hemfd, hxqfd, hmerge]

/-- C4 witness: the theorem evaluated with East Money raising and Xueqiu
returning an empty response. -/
theorem c4_all_sources_failed_witness :
    (get_stock_info "600000" (RawFetch.failure "boom")
        (RawFetch.empty : RawFetch String) []).merged "current_price" = none ∧
    (get_stock_info "600000" (RawFetch.failure "boom")
        (RawFetch.empty : RawFetch String) []).errors ≠ [] ∧
    (get_stock_info "600000" (RawFetch.failure "boom")
        (RawFetch.empty : RawFetch String) []).east_money_success = false ∧
    (get_stock_info "600000" (RawFetch.failure "boom")
        (RawFetch.empty : RawFetch String) []).xueqiu_success = false := by
  have h := c4_all_sources_failed "600000" (RawFetch.failure "boom")
    (RawFetch.empty : RawFetch String) []
    (fun d h => RawFetch.noConfusion h) (fun d h => RawFetch.noConfusion h)
  exact ⟨h.1 "current_price", h.2.1, h.2.2.1, h.2.2.2⟩

/-- Deciding non-membership in a cons splits into two tests. -/
theorem decide_not_mem_cons (a x : String × String)
    (xs : List (String × String)) :
    decide (a ∉ x :: xs) = (decide (a ≠ x) && decide (a ∉ xs)) := by
  by_cases h1 : a = x <;> by_cases h2 : a ∈ xs <;> simp [h1, h2]

/-- Storing splits the table into the untouched rows (keys outside the
batch, in their original order) followed by the batch's own rows. -/
theorem store_characterization {T : Type} (stamp : T)
    (rows : List HistoricalRow) (table : List (HistoricalRow × T)) :
    store_historical_data stamp rows table =
      table.filter (fun s => decide (row_key s.1 ∉ rows.map row_key)) ++
        store_historical_data stamp rows [] := by
  induction rows generalizing table with
  | nil => simp [store_historical_data]
  | cons r rest ih =>
      simp only [store_historical_data, List.foldl_cons]
      have h1 := ih (insert_or_replace (r, stamp) table)
      have h2 := ih (insert_or_replace (r, stamp) [])
      refine h1.trans ?_
      rw [show (List.foldl (fun acc r => insert_or_replace (r, stamp) acc)
        (insert_or_replace (r, stamp) []) rest) =
          store_historical_data stamp rest (insert_or_replace (r, stamp) [])
        from rfl, h2]
      simp only [insert_or_replace, List.filter_append, List.filter_filter,
        List.map_cons]
      rw [List.append_assoc]
      congr 1
      exact List.filter_congr (fun s _ => by
        rw [decide_not_mem_cons]
        exact Bool.and_comm _ _)

/-- Every row written by a store over the empty table comes from the
batch: its key is one of the batch keys. -/
theorem store_mem_key {T : Type} (stamp : T) (rows : List HistoricalRow)
    (table : List (HistoricalRow × T)) (s : HistoricalRow × T)
    (hs : s ∈ store_historical_data stamp rows table) :
    s ∈ table ∨ row_key s.1 ∈ rows.map row_key := by
  induction rows generalizing table with
  | nil => exact Or.inl hs
  | cons r rest ih =>
      simp only [store_historical_data, List.foldl_cons] at hs
      rcases ih (insert_or_replace (r, stamp) table) hs with hmem | hkey
      · simp only [insert_or_replace, List.mem_append, List.mem_filter,
          List.mem_singleton] at hmem
        rcases hmem with ⟨hmem, -⟩ | rfl
        · exact Or.inl hmem
        · exact Or.inr (by simp)
      · exact Or.inr (by simp [hkey])

/-- Projecting away the timestamps commutes with a key-based filter. -/
theorem fst_map_filter {T : Type} (q : HistoricalRow → Bool)
    (t : List (HistoricalRow × T)) :
    (t.filter (fun s => q s.1)).map Prod.fst = (t.map Prod.fst).filter q := by
  induction t with
  | nil => rfl
  | cons x rest ih => by_cases h : q x.1 <;> simp [h, ih]

/-- Extracting the keys commutes with a key-based filter. -/
theorem key_map_filter {T : Type} (q : (String × String) → Bool)
    (t : List (HistoricalRow × T)) :
    (t.filter (fun s => q (row_key s.1))).map (fun s => row_key s.1) =
      (t.map (fun s => row_key s.1)).filter q := by
  induction t with
  | nil => rfl
  | cons x rest ih => by_cases h : q (row_key x.1) <;> simp [h, ih]

/-- The stored bars do not depend on the timestamps attached to the rows:
storing the same batch over tables with equal bar content yields equal bar
content, whatever the two stamps. -/
theorem store_bar_congr {T T' : Type} (n1 : T) (n2 : T')
    (rows : List HistoricalRow) (t1 : List (HistoricalRow × T))
    (t2 : List (HistoricalRow × T')) (h : t1.map Prod.fst = t2.map Prod.fst) :
    (store_historical_data n1 rows t1).map Prod.fst =
      (store_historical_data n2 rows t2).map Prod.fst := by
  induction rows generalizing t1 t2 with
  | nil => exact h
  | cons r rest ih =>
      simp only [store_historical_data, List.foldl_cons]
      refine ih (insert_or_replace (r, n1) t1) (insert_or_replace (r, n2) t2) ?_
      simp only [insert_or_replace, List.map_append, List.map_cons, List.map_nil]
      rw [fst_map_filter (fun x => decide (row_key x ≠ row_key r)) t1,
        fst_map_filter (fun x => decide (row_key x ≠ row_key r)) t2, h]

/-- `INSERT OR REPLACE` preserves the primary-key constraint. -/
theorem insert_or_replace_nodup_keys {T : Type} (r : HistoricalRow × T)
    (t : List (HistoricalRow × T)) (h : nodup_keys t) :
    nodup_keys (insert_or_replace r t) := by
  simp only [nodup_keys, key_list, insert_or_replace, List.map_append,
    List.map_cons, List.map_nil] at h ⊢
  rw [key_map_filter (fun x => decide (x ≠ row_key r.1)) t]
  rw [List.nodup_append]
  refine ⟨h.filter _, List.nodup_singleton _, ?_⟩
  intro k hk1 hk2
  simp only [List.mem_singleton] at hk2
  subst hk2
  have := (List.mem_filter.mp hk1).2
  simp at this

/-- A batch store preserves the primary-key constraint. -/
theorem store_nodup_keys {T : Type} (stamp : T) (rows : List HistoricalRow)
    (table : List (HistoricalRow × T)) (h : nodup_keys table) :
    nodup_keys (store_historical_data stamp rows table) := by
  induction rows generalizing table with
  | nil => exact h
  | cons r rest ih =>
      simp only [store_historical_data, List.foldl_cons]
      exact ih (insert_or_replace (r, stamp) table)
        (insert_or_replace_nodup_keys (r, stamp) table h)

/-- C5: storing the same batch of bars twice yields the same stored bars
(timestamp columns aside — they carry the `datetime.now()` of each call)
as storing it once, and the table keeps pairwise-distinct
`(date, stock_code)` keys; `INSERT OR REPLACE` is total, so no
key-collision error can occur. -/
theorem c5_store_idempotent {T : Type} (stamp1 stamp2 : T)
    (rows : List HistoricalRow) (table : List (HistoricalRow × T))
    (hnd : nodup_keys table) :
    (store_historical_data stamp2 rows
        (store_historical_data stamp1 rows table)).map Prod.fst =
      (store_historical_data stamp1 rows table).map Prod.fst ∧
    nodup_keys (store_historical_data stamp1 rows table) := by
  constructor
  · have hchar2 := store_characterization stamp2 rows
      (store_historical_data stamp1 rows table)
    have hchar1 := store_characterization stamp1 rows table
    have hfilterP : (store_historical_data stamp1 rows table).filter
        (fun s => decide (row_key s.1 ∉ rows.map row_key)) =
          table.filter (fun s => decide (row_key s.1 ∉ rows.map row_key)) := by
      rw [hchar1, List.filter_append]
      have hempty : (store_historical_data stamp1 rows []).filter
          (fun s => decide (row_key s.1 ∉ rows.map row_key)) = [] := by
        refine List.filter_eq_nil_iff.mpr ?_
        intro s hs
        rcases store_mem_key stamp1 rows [] s hs with hmem | hkey
        · cases hmem
        · simp [hkey]
      rw [hempty, List.append_nil, List.filter_filter]
      exact List.filter_congr (fun s _ => Bool.and_self _)
    rw [hchar2, hfilterP, hchar1, List.map_append, List.map_append]
    congr 1
    exact store_bar_congr stamp2 stamp1 rows [] [] rfl
  · exact store_nodup_keys stamp1 rows table hnd

/-- C5 witness: the theorem evaluated on one concrete row stored twice
with two different timestamps over the empty table. -/
theorem c5_store_idempotent_witness :
    (store_historical_data 2 [sample_row] (store_historical_data 1 [sample_row]
        ([] : List (HistoricalRow × ℕ)))).map Prod.fst =
      (store_historical_data 1 [sample_row]
        ([] : List (HistoricalRow × ℕ))).map Prod.fst ∧
    nodup_keys (store_historical_data 1 [sample_row]
      ([] : List (HistoricalRow × ℕ))) :=
  c5_store_idempotent 1 2 [sample_row] [] (by simp [nodup_keys, key_list])

/-- An unusable value converts to the float default. -/
theorem safe_float_unusable (parse : String → Option ℚ) (value : Option PyVal)
    (dflt : ℚ) (h : unusable_numeric parse value) :
    safe_float parse value dflt = dflt := by
  match value with
  | none => rfl
  | some .vNone => rfl
  | some .vNaN => rfl
  | some .vObj => rfl
  | some (.vNum q) => exact absurd h (by simp [unusable_numeric])
  | some (.vStr s) =>
      rcases h with h1 | h2 | h3
      · simp [safe_float, pd_isna, h1]
      · simp [safe_float, pd_isna, h2]
      · by_cases hse : s.trim = "" ∨ (s.trim).toLower ∈ sentinel_markers
        · simp [safe_float, pd_isna, hse]
        · simp [safe_float, pd_isna, hse, h3]

/-- An unusable value converts to the int default. -/
theorem safe_int_unusable (parse : String → Option ℚ) (value : Option PyVal)
    (dflt : ℤ) (h : unusable_numeric parse value) :
    safe_int parse value dflt = dflt := by
  match value with
  | none => rfl
  | some .vNone => rfl
  | some .vNaN => rfl
  | some .vObj => rfl
  | some (.vNum q) => exact absurd h (by simp [unusable_numeric])
  | some (.vStr s) =>
      rcases h with h1 | h2 | h3
      · simp [safe_int, pd_isna, h1]
      · simp [safe_int, pd_isna, h2]
      · by_cases hse : s.trim = "" ∨ (s.trim).toLower ∈ sentinel_markers
        · simp [safe_int, pd_isna, hse]
        · simp [safe_int, pd_isna, hse, h3]

/-- C10: the row-to-storage conversion is total on the numeric cells —
for a row whose date is present and whose numeric cells are all missing,
None, NaN, empty, sentinel, unparseable or non-numeric, the conversion
returns a row (no exception, no NULL) whose numeric columns are all the
fabricated defaults 0.0 (0 for `volume`). -/
theorem c10_conversion_total_defaults (parse : String → Option ℚ)
    (stock_code : String) (row : DataRow) (d : String)
    (hdate : row.date = some d)
    (hbad : ∀ f ∈ numeric_float_fields, unusable_numeric parse (row.fields f))
    (hvol : unusable_numeric parse (row.fields "volume")) :
    convert_row_to_values parse stock_code row =
      some
        { date := d, stock_code := stock_code, open_price := 0,
          close_price := 0, high_price := 0, low_price := 0, volume := 0,
          turnover := 0, amplitude := 0, price_change_rate := 0,
          price_change := 0, turnover_rate := 0 } := by
  unfold convert_row_to_values
  rw [hdate]
  rw [safe_float_unusable parse _ 0 (hbad "open_price" (by decide)),
    safe_float_unusable parse _ 0 (hbad "close_price" (by decide)),
    safe_float_unusable parse _ 0 (hbad "high_price" (by decide)),
    safe_float_unusable parse _ 0 (hbad "low_price" (by decide)),
    safe_int_unusable parse _ 0 hvol,
    safe_float_unusable parse _ 0 (hbad "turnover" (by decide)),
    safe_float_unusable parse _ 0 (hbad "amplitude" (by decide)),
    safe_float_unusable parse _ 0 (hbad "price_change_rate" (by decide)),
    safe_float_unusable parse _ 0 (hbad "price_change" (by decide)),
    safe_float_unusable parse _ 0 (hbad "turnover_rate" (by decide))]

/-- C10 witness: a row of NaN cells with an unparseable-everything parser
converts to all-zero numeric columns. -/
theorem c10_conversion_total_defaults_witness :
    convert_row_to_values (fun _ => none) "000001"
        ⟨some "2024-01-02", fun _ => some PyVal.vNaN⟩ =
      some
        { date := "2024-01-02", stock_code := "000001", open_price := 0,
          close_price := 0, high_price := 0, low_price := 0, volume := 0,
          turnover := 0, amplitude := 0, price_change_rate := 0,
          price_change := 0, turnover_rate := 0 } :=
  c10_conversion_total_defaults (fun _ => none) "000001"
    ⟨some "2024-01-02", fun _ => some PyVal.vNaN⟩ "2024-01-02" rfl
    (fun f _ => trivial) trivial
